import Mathlib

/-!
Verification of the DataHawk LLM server core: a shallow embedding of the
decision cache, model selection, comparison orchestration, health monitor
and model lifecycle managers, translated from the Python sources
(`llm-server-production.py`, `src/llm_server/core/health_monitor.py`,
`src/llm_server/core/model_manager.py`,
`src/llm_server/core/model_manager_safe.py`,
`src/llm_server/api/routes_safe.py`).

Conventions of the embedding:
* machine floats become `ℚ` (all confidences, rates and timestamps in the
  source are small decimal values, and only order comparisons matter);
* wall-clock time is passed explicitly (`now : ℚ`) where the Python code
  calls `time.time()`;
* the native inference engine, the filesystem and the SQLite store are
  external collaborators, so they appear as explicit parameters (oracles
  for attempt outcomes, a `String → Bool` on-disk predicate, a list of
  rows for the decision table);
* the MD5 digest used for cache keys is an arbitrary function parameter
  `hashFn : String → String` applied to the exact pre-hash string built by
  the source; properties are proved for every `hashFn` (positive
  direction) or for the pre-hash string itself (negative direction).
-/

/-! ## String helpers (substring containment, as used by the Python `in`) -/

/-- `startsWithL l w` holds when the character list `w` is an initial
segment of `l` (the Python `str.startswith`). -/
def startsWithL : List Char → List Char → Bool
  | _, [] => true
  | [], _ :: _ => false
  | a :: as, b :: bs => a = b && startsWithL as bs

/-- `containsL l w`: the character list `w` occurs contiguously inside `l`
(the Python `w in l` on strings). -/
def containsL : List Char → List Char → Bool
  | [], w => w.isEmpty
  | l@(_ :: as), w => startsWithL l w || containsL as w

/-- Substring test on strings, the Python `needle in haystack`. -/
def strContains (haystack needle : String) : Bool :=
  containsL haystack.toList needle.toList

/-- The Python `str.lower()` (character-wise, kernel-computable). -/
def strLower (s : String) : String := String.mk (s.toList.map Char.toLower)

/-- The Python `str.upper()` (character-wise, kernel-computable). -/
def strUpper (s : String) : String := String.mk (s.toList.map Char.toUpper)

/-- ASCII whitespace, as stripped by the Python `str.strip()`. -/
def isWS (c : Char) : Bool := c = ' ' || c = '\t' || c = '\n' || c = '\r'

/-- The Python `str.strip()`: drop leading and trailing whitespace. -/
def strTrim (s : String) : String :=
  String.mk (((s.toList.dropWhile isWS).reverse.dropWhile isWS).reverse)

/-! ## Kernel-computable rational arithmetic

`Rat.add`, `Rat.sub`, `min` and `max` on `ℚ` do not reduce inside the
kernel, so the embedding uses the following equivalent operations,
each proved equal to the standard one. -/

/-- Addition on `ℚ` by cross-multiplication (equals `a + b`). -/
def ratAdd (a b : ℚ) : ℚ := mkRat (a.num * b.den + b.num * a.den) (a.den * b.den)

/-- Subtraction on `ℚ` by cross-multiplication (equals `a - b`). -/
def ratSub (a b : ℚ) : ℚ := mkRat (a.num * b.den - b.num * a.den) (a.den * b.den)

/-- Minimum on `ℚ` by comparison (equals `min a b`). -/
def ratMin (a b : ℚ) : ℚ := if a ≤ b then a else b

/-- Maximum on `ℚ` by comparison (equals `max a b`). -/
def ratMax (a b : ℚ) : ℚ := if a ≤ b then b else a

theorem ratAdd_eq (a b : ℚ) : ratAdd a b = a + b := by
  rw [ratAdd, Rat.add_def, Rat.normalize_eq_mkRat]

theorem ratSub_eq (a b : ℚ) : ratSub a b = a - b := by
  rw [ratSub, Rat.sub_def, Rat.normalize_eq_mkRat]

theorem ratMin_eq (a b : ℚ) : ratMin a b = min a b := by
  rw [ratMin, min_def]

theorem ratMax_eq (a b : ℚ) : ratMax a b = max a b := by
  rw [ratMax, max_def]

/-! ## Decision cache (`LearningSystem` in `llm-server-production.py`) -/

/-- `ValidationDecision` dataclass from `llm-server-production.py`. -/
structure ValidationDecision where
  id : String
  timestamp : ℚ
  csv_value : String
  web_value : String
  field_type : String
  model_used : String
  matched : Bool
  confidence : ℚ
  reasoning : String
  processing_time_ms : Nat
deriving Repr, DecidableEq

/-- A persisted row of the `validation_decisions` table: the decision
plus the `hash_key` column computed at insertion time. -/
structure StoredDecision where
  decision : ValidationDecision
  hash_key : String
deriving Repr, DecidableEq

/-- The exact pre-hash string built by `LearningSystem.store_decision`
and `LearningSystem.find_similar_decision`:
`f"{csv_value.lower()}:{web_value.lower()}:{field_type}"`. -/
def hashInput (csv_value web_value field_type : String) : String :=
  strLower csv_value ++ ":" ++ strLower web_value ++ ":" ++ field_type

/-- The cache key: the digest (`hashlib.md5(...).hexdigest()`, abstracted
as `hashFn`) of the pre-hash string. -/
def hash_key (hashFn : String → String) (csv_value web_value field_type : String) : String :=
  hashFn (hashInput csv_value web_value field_type)

/-- The decision table.  Rows are kept in insertion order. -/
abbrev DecisionDB := List StoredDecision

/-- `INSERT OR REPLACE` keyed by the primary key `id`, as in
`LearningSystem.store_decision`: any row with the same `id` is replaced,
and the `hash_key` column is computed from the decision's lowercased
values and field type. -/
def store_decision (hashFn : String → String) (db : DecisionDB)
    (d : ValidationDecision) : DecisionDB :=
  db.filter (fun r => r.decision.id ≠ d.id) ++
    [⟨d, hash_key hashFn d.csv_value d.web_value d.field_type⟩]

/-- `ORDER BY timestamp DESC LIMIT 1`: the row with the greatest
timestamp (later rows win ties, matching an arbitrary SQL tie-break). -/
def latestByTimestamp : List StoredDecision → Option StoredDecision
  | [] => none
  | d :: ds =>
    match latestByTimestamp ds with
    | none => some d
    | some d' => if d'.decision.timestamp ≥ d.decision.timestamp then some d' else some d

/-- `LearningSystem.find_similar_decision`: recompute the key from the
lowercased inputs, keep rows with that `hash_key` and
`confidence >= similarity_threshold` (default `0.95`), and return the
most recent one. -/
def find_similar_decision (hashFn : String → String) (db : DecisionDB)
    (csv_value web_value field_type : String)
    (similarity_threshold : ℚ := mkRat 95 100) : Option StoredDecision :=
  let key := hash_key hashFn csv_value web_value field_type
  latestByTimestamp (db.filter
    (fun r => r.hash_key = key ∧ r.decision.confidence ≥ similarity_threshold))

/-! ## Model descriptors and selection (`llm-server-production.py`) -/

/-- `ModelConfig` dataclass from `llm-server-production.py`. -/
structure ModelConfig where
  name : String
  path : String
  memory_requirement_gb : ℚ
  description : String
  strengths : List String
  optimal_for : List String
  n_ctx : Nat
  n_threads : Nat
  n_batch : Nat
  temperature : ℚ
deriving Repr, DecidableEq, Inhabited

/-- The `SUPPORTED_MODELS` list, in declaration order. -/
def SUPPORTED_MODELS : List ModelConfig :=
  [ { name := "tinyllama"
    , path := "models/tinyllama-1.1b-chat-v1.0.Q4_K_M.gguf"
    , memory_requirement_gb := mkRat 15 10
    , description := "TinyLlama 1.1B - Ultra rapido, baixo consumo de RAM"
    , strengths := ["speed", "low_memory"]
    , optimal_for := ["simple_validation", "quick_comparisons", "id", "code", "category"]
    , n_ctx := 1024, n_threads := 2, n_batch := 64, temperature := mkRat 2 10 }
  , { name := "qwen-1.8b"
    , path := "models/qwen1.5-1.8b-chat.Q4_K_M.gguf"
    , memory_requirement_gb := 2
    , description := "Qwen 1.8B - Bom para raciocinio numerico e logica"
    , strengths := ["numerical_reasoning", "logical_thinking"]
    , optimal_for := ["number_validation", "cpf_cnpj", "financial_data", "number", "currency", "percentage"]
    , n_ctx := 2048, n_threads := 2, n_batch := 128, temperature := mkRat 1 10 }
  , { name := "gemma-2b"
    , path := "models/gemma-2b-it.Q4_K_M.gguf"
    , memory_requirement_gb := mkRat 25 10
    , description := "Gemma 2B - Equilibrado, excelente em PT-BR"
    , strengths := ["portuguese", "text_understanding", "cultural_context"]
    , optimal_for := ["name_validation", "address_validation", "portuguese_text", "name", "address", "city", "description"]
    , n_ctx := 2048, n_threads := 3, n_batch := 128, temperature := mkRat 1 10 }
  , { name := "phi3-mini"
    , path := "models/phi-3-mini-4k-instruct.Q4_K_M.gguf"
    , memory_requirement_gb := mkRat 35 10
    , description := "Phi-3 Mini - Qualidade superior geral"
    , strengths := ["general_intelligence", "complex_reasoning", "accuracy"]
    , optimal_for := ["complex_validation", "mixed_content", "fallback", "email", "phone", "mixed", "complex"]
    , n_ctx := 4096, n_threads := 3, n_batch := 128, temperature := mkRat 1 10 } ]

/-- `ProductionLLMServerV2.get_available_models`: keep the supported
models whose memory requirement is at most
`available_memory - memory_threshold` (the configured
`memory_threshold_gb`, default `0.5`) and whose artifact file exists. -/
def get_available_models (available_memory memory_threshold : ℚ)
    (fileOnDisk : String → Bool) : List ModelConfig :=
  SUPPORTED_MODELS.filter
    (fun m => decide (m.memory_requirement_gb ≤ ratSub available_memory memory_threshold)
      && fileOnDisk m.path)

/-- `ModelSelector.select_model_for_field_type`.  `mapping` is the
configured `field_type_mapping`; `fallback_order` is the configured
`auto_selection.fallback_order` (`none` when absent, in which case the
available-names list itself is the fallback order). -/
def select_model_for_field_type (mapping : String → Option String)
    (fallback_order : Option (List String)) (field_type : String)
    (available_models : List String) : Option String :=
  let fromFallback :=
    match (fallback_order.getD available_models).find? (fun m => available_models.contains m) with
    | some m => some m
    | none => available_models.head?
  match mapping field_type with
  | some preferred => if available_models.contains preferred then some preferred else fromFallback
  | none => fromFallback

/-- `ProductionLLMServerV2.select_model_for_request`. -/
def select_model_for_request (available_memory memory_threshold : ℚ)
    (fileOnDisk : String → Bool) (mapping : String → Option String)
    (fallback_order : Option (List String)) (field_type : Option String) :
    Option ModelConfig :=
  let available := get_available_models available_memory memory_threshold fileOnDisk
  if available.isEmpty then none
  else
    let names := available.map (fun m => m.name)
    let selected : Option String :=
      match field_type with
      | some ft => select_model_for_field_type mapping fallback_order ft names
      | none => (fallback_order.getD names).find? (fun n => names.contains n)
    match selected with
    | some n =>
      match available.find? (fun m => m.name = n) with
      | some cfg => some cfg
      | none => available.head?
    | none => available.head?

/-! ## Classification and the `/validate` pipeline (`llm-server-production.py`) -/

/-- Classification of the raw completion text inside
`ProductionLLMServerV2.validate`: the answer is stripped and upper-cased,
`match` is keyword presence, the base confidence `0.85`/`0.15` is then
adjusted per model (`phi3-mini`/`gemma-2b` boosted and capped at `0.95`,
`tinyllama` penalised with floor `0.1`). -/
def classifyAnswer (modelName rawText : String) : Bool × ℚ :=
  let answer := strUpper (strTrim rawText)
  let matched := strContains answer "YES" || strContains answer "SIM"
    || strContains answer "TRUE" || strContains answer "IGUAL"
  let confidence : ℚ := if matched then mkRat 85 100 else mkRat 15 100
  let confidence :=
    if modelName = "phi3-mini" ∨ modelName = "gemma-2b" then
      ratMin (mkRat 95 100) (ratAdd confidence (mkRat 1 10))
    else if modelName = "tinyllama" then
      ratMax (mkRat 1 10) (ratSub confidence (mkRat 1 10))
    else confidence
  (matched, confidence)

/-- The persist floor inside `validate`: `if confidence >= 0.7:
self.learning_system.store_decision(decision)`. -/
def persist_floor : ℚ := mkRat 7 10

/-- Response shape of the `/validate` endpoint (the fields the claims
are about, plus the HTTP status code). -/
structure ValidateResponse where
  status : Nat
  matched : Bool
  confidence : ℚ
  model_used : String
  from_cache : Bool
deriving Repr, DecidableEq

/-- `ProductionLLMServerV2.validate`, the comparison orchestration:
cache lookup first; on a hit respond `from_cache=True` with the stored
match/confidence; on a miss select a model (`modelSel`, the outcome of
`select_model_for_request`), load it (`loadOk`), run inference
(`respText`, `none` when the completion response is empty), classify,
persist the decision exactly when its confidence reaches the `0.7`
floor, and respond `from_cache=False`.  Returns the response together
with the decision table after the request. -/
def validate (hashFn : String → String) (db : DecisionDB)
    (csv_value web_value field_type : String)
    (modelSel : Option ModelConfig) (loadOk : Bool) (respText : Option String)
    (reqId : String) (now : ℚ) (processing_time_ms : Nat) :
    ValidateResponse × DecisionDB :=
  match find_similar_decision hashFn db csv_value web_value field_type with
  | some r =>
    ({ status := 200, matched := r.decision.matched
     , confidence := r.decision.confidence
     , model_used := "cache(" ++ r.decision.model_used ++ ")"
     , from_cache := true }, db)
  | none =>
    match modelSel with
    | none =>
      ({ status := 503, matched := false, confidence := 0
       , model_used := "", from_cache := false }, db)
    | some cfg =>
      if ¬ loadOk then
        ({ status := 503, matched := false, confidence := 0
         , model_used := "", from_cache := false }, db)
      else
        match respText with
        | none =>
          ({ status := 500, matched := false, confidence := 0
           , model_used := cfg.name, from_cache := false }, db)
        | some text =>
          let (m, c) := classifyAnswer cfg.name text
          let d : ValidationDecision :=
            { id := reqId, timestamp := now
            , csv_value := csv_value, web_value := web_value
            , field_type := field_type, model_used := cfg.name
            , matched := m, confidence := c
            , reasoning := "LLM (" ++ cfg.name ++ "): " ++ text
            , processing_time_ms := processing_time_ms }
          let db' := if c ≥ persist_floor then store_decision hashFn db d else db
          ({ status := 200, matched := m, confidence := c
           , model_used := cfg.name, from_cache := false }, db')

/-! ## Health monitor (`src/llm_server/core/health_monitor.py`) -/

/-- Overall health status, as derived by `ServerHealth.get_health_status`. -/
inductive Status where
  | healthy
  | warning
  | degraded
  | recovering
deriving Repr, DecidableEq

/-- Mutable state of `ServerHealth`.  Request/error windows are kept
oldest-first, as the Python lists are (`append` at the end, `pop(0)` at
the front). -/
structure HealthState where
  start_time : ℚ
  last_heartbeat : ℚ
  consecutive_errors : Nat
  recovery_attempts : Nat
  recent_requests : List (ℚ × Bool)
  recent_errors : List (ℚ × Option String)
  monitoring_active : Bool
deriving Repr, DecidableEq

/-- `ServerHealth.__init__` at time `t0`. -/
def HealthState.fresh (t0 : ℚ) : HealthState :=
  { start_time := t0, last_heartbeat := t0
  , consecutive_errors := 0, recovery_attempts := 0
  , recent_requests := [], recent_errors := []
  , monitoring_active := true }

def max_consecutive_errors : Nat := 5
def max_recovery_attempts : Nat := 3
/-- `error_threshold_rate = 0.1`. -/
def error_threshold_rate : ℚ := mkRat 1 10

/-- `ServerHealth.trigger_recovery`: refuse (returning `False`) once
`max_recovery_attempts` is reached; otherwise bump the attempt counter,
run a garbage-collection pass, reset the consecutive-error counter and
report success. -/
def trigger_recovery (st : HealthState) : Bool × HealthState :=
  if st.recovery_attempts ≥ max_recovery_attempts then (false, st)
  else
    (true, { st with recovery_attempts := st.recovery_attempts + 1,
                     consecutive_errors := 0 })

/-- `ServerHealth.record_request` at wall-clock time `now`: append to
the request window (evicting past capacity 100); on failure bump the
consecutive-error counter, append to the error window (capacity 50) and,
at `max_consecutive_errors`, trigger recovery synchronously; on success
reset the consecutive-error counter; finally refresh the heartbeat. -/
def record_request (st : HealthState) (success : Bool)
    (error_msg : Option String) (now : ℚ) : HealthState :=
  let reqs := st.recent_requests ++ [(now, success)]
  let reqs := if reqs.length > 100 then reqs.tail else reqs
  let st :=
    if success then
      { st with recent_requests := reqs, consecutive_errors := 0 }
    else
      let consec := st.consecutive_errors + 1
      let errs := st.recent_errors ++ [(now, error_msg)]
      let errs := if errs.length > 50 then errs.tail else errs
      let st := { st with recent_requests := reqs,
                          consecutive_errors := consec, recent_errors := errs }
      if consec ≥ max_consecutive_errors then (trigger_recovery st).2 else st
  { st with last_heartbeat := now }

/-- The report returned by `ServerHealth.get_health_status`. -/
structure HealthReport where
  status : Status
  uptime_seconds : ℚ
  consecutive_errors : Nat
  error_rate_5min : ℚ
  recovery_attempts : Nat
  total_requests : Nat
  recent_errors : Nat
  last_heartbeat : ℚ
deriving Repr, DecidableEq

/-- `ServerHealth.get_health_status` at time `now`: the 5-minute error
rate over the request records strictly newer than `now - 300` (0.0 when
that window is empty), and the status priority chain
`consecutive_errors >= 3` → degraded, `error_rate > 0.1` → warning,
`recovery_attempts > 0` → recovering, else healthy. -/
def get_health_status (st : HealthState) (now : ℚ) : HealthReport :=
  let recent_reqs := st.recent_requests.filter (fun r => r.1 > ratSub now 300)
  let error_rate : ℚ :=
    if recent_reqs.isEmpty then 0
    else mkRat ((recent_reqs.filter (fun r => ¬ r.2)).length : Int) (recent_reqs.length)
  let status :=
    if st.consecutive_errors ≥ 3 then Status.degraded
    else if error_rate > error_threshold_rate then Status.warning
    else if st.recovery_attempts > 0 then Status.recovering
    else Status.healthy
  { status := status
  , uptime_seconds := now - st.start_time
  , consecutive_errors := st.consecutive_errors
  , error_rate_5min := error_rate
  , recovery_attempts := st.recovery_attempts
  , total_requests := st.recent_requests.length
  , recent_errors := st.recent_errors.length
  , last_heartbeat := st.last_heartbeat }

/-! ## Safe API routes (`src/llm_server/api/routes_safe.py`) -/

/-- The `/health` route of `create_app_safe`: on the normal path it
builds the report, calls `health_monitor.record_request(success=True)`
once and responds 200; when any step raises it calls
`health_monitor.record_request(success=False, ...)` once and responds
500.  `raised` models whether the body raised.  The second component
lists the `record_request` calls made, in order (`true` = recorded as
success). -/
def health_route (st : HealthState) (now : ℚ) (raised : Bool) (errText : String) :
    (HealthState × Nat) × List Bool :=
  if raised then
    ((record_request st false (some errText) now, 500), [false])
  else
    ((record_request st true none now, 200), [true])

/-- Result of `generate` as seen by the `/validate` route. -/
structure GenOut where
  text : String
  tokens : Nat
  processing_time : ℚ
deriving Repr, DecidableEq

/-- Terminal responses of the `/validate` route in `routes_safe.py`. -/
inductive VResp where
  | badContentType
  | emptyBody
  | okJson (matched : Bool) (confidence : ℚ) (reasoning : String)
  | fallbackResp (matched : Bool) (confidence : ℚ)
  | internalError (msg : String)
deriving Repr, DecidableEq

/-- The string-comparison fallback inside the `/validate` route, used
when no JSON can be extracted from the model output: lowercase+strip
equality gives confidence 1.0, equality after removing spaces 0.9,
substring containment 0.7, otherwise no match with confidence 0.5. -/
def fallbackCompare (csv_value web_value : String) : Bool × ℚ :=
  let csv_norm := strTrim (strLower csv_value)
  let web_norm := strTrim (strLower web_value)
  let deSpace := fun (s : String) => String.mk (s.toList.filter (fun c => c ≠ ' '))
  if csv_norm = web_norm then (true, 1)
  else if deSpace csv_norm = deSpace web_norm then (true, mkRat 9 10)
  else if strContains web_norm csv_norm || strContains csv_norm web_norm then (true, mkRat 7 10)
  else (false, mkRat 5 10)

/-- The `/validate` route of `create_app_safe` (`routes_safe.py`),
threading the health-monitor interaction explicitly: `is_json`/`hasBody`
guard the 400 paths, `gen` is the outcome of `server.generate` (`none`
when it raised, which the route re-raises into its outer handler), and
`jsonParsed` is the result of `extract_json_from_text` together with the
check that all of `match`/`confidence`/`reasoning` are present.  The
second component lists the `record_request` calls the route performs —
the route never touches the health monitor, on any path. -/
def validate_route (is_json hasBody : Bool) (csv_value web_value : String)
    (gen : Option GenOut) (jsonParsed : Option (Bool × ℚ × String)) :
    VResp × List Bool :=
  if ¬ is_json then (.badContentType, [])
  else if ¬ hasBody then (.emptyBody, [])
  else
    match gen with
    | none => (.internalError "generation failed", [])
    | some _ =>
      match jsonParsed with
      | some (m, c, r) => (.okJson m (ratMin (ratMax c 0) 1) r, [])
      | none =>
        let (m, c) := fallbackCompare csv_value web_value
        (.fallbackResp m c, [])

/-! ## Model lifecycle manager (`src/llm_server/core/model_manager.py`) -/

/-- `LlamaServer.load_model`, abstracted over per-attempt oracles:
`constructOk k` — the `Llama(...)` construction on the attempt with
`retry_count = k` succeeds; `verifyOk k` — the post-load
`verify_model_integrity` self-test passes.  Returns
`(result, attempts, delays)`: the boolean result, the number of
construction attempts actually made, and the list of back-off delays
slept between consecutive attempts (`(retry_count + 1) * 2` seconds).
A self-test failure raises and is caught by the same retry handler as a
construction failure. -/
def llama_load_go (fileOk : Bool) (constructOk verifyOk : Nat → Bool)
    (max_retries : Nat) : Nat → Nat → Bool × Nat × List Nat
  | 0, _ => (false, 0, [])
  | fuel + 1, retry_count =>
    if retry_count ≥ max_retries then (false, 0, [])
    else if ¬ fileOk then (false, 0, [])
    else if constructOk retry_count && verifyOk retry_count then (true, 1, [])
    else if retry_count < max_retries - 1 then
      let r := llama_load_go fileOk constructOk verifyOk max_retries fuel (retry_count + 1)
      (r.1, r.2.1 + 1, (retry_count + 1) * 2 :: r.2.2)
    else (false, 1, [])

/-- `LlamaServer.load_model` proper: since `retry_count` grows strictly
towards `max_retries`, a fuel of `max_retries` suffices for the
recursion (the `retry_count >= max_retries` guard fires first, exactly
as in the source). -/
def llama_load_model (fileOk : Bool) (constructOk verifyOk : Nat → Bool)
    (retry_count max_retries : Nat) : Bool × Nat × List Nat :=
  llama_load_go fileOk constructOk verifyOk max_retries max_retries retry_count

/-- Entry point of `LlamaServer.load_model` (default
`retry_count=0, max_retries=3`), including the already-loaded fast
path: if a model is loaded and passes the self-test, return `True`
without any attempt; otherwise fall through to the retry loop. -/
def llama_load_entry (model_loaded loadedVerifyOk : Bool) (fileOk : Bool)
    (constructOk verifyOk : Nat → Bool) (max_retries : Nat := 3) :
    Bool × Nat × List Nat :=
  if model_loaded && loadedVerifyOk then (true, 0, [])
  else llama_load_model fileOk constructOk verifyOk 0 max_retries

/-! ## Safe model manager (`src/llm_server/core/model_manager_safe.py`) -/

/-- A model artifact as seen by `_check_model_integrity`: existence,
size in bytes, and the file's bytes (only a leading fragment matters). -/
structure Artifact where
  pathExists : Bool
  size : Nat
  bytes : List Nat
deriving Repr, DecidableEq

/-- `min_size = 100 * 1024 * 1024` bytes in `_check_model_integrity`. -/
def min_model_size : Nat := 100 * 1024 * 1024

/-- The GGUF magic, `b'GGUF'`. -/
def ggufMagic : List Nat := [0x47, 0x47, 0x55, 0x46]

/-- `SafeLlamaServer._check_model_integrity`: path existence first,
then the absolute minimum-size floor, then the magic header of the
first bytes (`f.read(8)` followed by `startswith(b'GGUF')`).  The first
violated check decides; the function only reads. -/
def check_model_integrity (a : Artifact) : Bool :=
  if ¬ a.pathExists then false
  else if a.size < min_model_size then false
  else decide (((a.bytes.take 8).take 4) = ggufMagic)

/-- `SafeLlamaServer.load_model`, abstracted over per-attempt oracles.
The construction runs inside a worker thread that catches its own
exceptions, so a failed or timed-out construction (`constructOk`/
`timedOut`) falls through to the plain `return False` — the recursive
retry (with delay `(retry_count + 1) * 5`) is reachable only when the
surrounding orchestration code itself raises (`outerRaises`).  Returns
`(result, constructions, delays)` where `constructions` counts the
native `Llama(...)` invocations. -/
def safe_load_go (shutdown model_loaded : Bool) (a : Artifact) (memoryOk : Bool)
    (outerRaises constructOk timedOut verifyOk : Nat → Bool)
    (max_retries : Nat) : Nat → Nat → Bool × Nat × List Nat
  | 0, _ => (false, 0, [])
  | fuel + 1, retry_count =>
    if shutdown then (false, 0, [])
    else if model_loaded then (true, 0, [])
    else if retry_count ≥ max_retries then (false, 0, [])
    else if ¬ check_model_integrity a then (false, 0, [])
    else if ¬ memoryOk then (false, 0, [])
    else if outerRaises retry_count then
      if retry_count < max_retries - 1 then
        let r := safe_load_go shutdown model_loaded a memoryOk
          outerRaises constructOk timedOut verifyOk max_retries fuel (retry_count + 1)
        (r.1, r.2.1, (retry_count + 1) * 5 :: r.2.2)
      else (false, 0, [])
    else if ¬ timedOut retry_count && constructOk retry_count then
      if verifyOk retry_count then (true, 1, [])
      else (false, 1, [])
    else (false, 1, [])

/-- `SafeLlamaServer.load_model` proper: as with `llama_load_model`,
`retry_count` grows strictly towards `max_retries`, so a fuel of
`max_retries` covers the recursion and the source's
`retry_count >= max_retries` guard is what actually stops it. -/
def safe_load_model (shutdown model_loaded : Bool) (a : Artifact) (memoryOk : Bool)
    (outerRaises constructOk timedOut verifyOk : Nat → Bool)
    (retry_count max_retries : Nat) : Bool × Nat × List Nat :=
  safe_load_go shutdown model_loaded a memoryOk outerRaises constructOk timedOut
    verifyOk max_retries max_retries retry_count

/-! ## Production server model cache (`ProductionLLMServerV2`) -/

/-- The parts of `ProductionLLMServerV2`'s state the lifecycle claims
are about: `models` — the keys of `self.models`, the dictionary of live
native engine instances, in insertion order — and the name of
`self.current_model_config`. -/
structure ProdServerState where
  models : List String
  currentModel : Option String
deriving Repr, DecidableEq

/-- `ProductionLLMServerV2.__init__`: empty engine cache, no current
model. -/
def ProdServerState.init : ProdServerState := ⟨[], none⟩

/-- `ProductionLLMServerV2.load_model`: if the requested engine is
already cached, just switch the current config; otherwise construct the
engine (`constructOk`), store it in the cache, and run the self-test —
`testResult = some true` keeps it and switches the current config,
`some false` (empty completion) returns `False` leaving the new engine
cached, `none` (the completion raised) deletes the just-added entry.
A failed construction leaves the state unchanged. -/
def prod_load_model (st : ProdServerState) (cfg : ModelConfig)
    (constructOk : Bool) (testResult : Option Bool) : Bool × ProdServerState :=
  if st.models.contains cfg.name then
    (true, { st with currentModel := some cfg.name })
  else if constructOk then
    let st1 := { st with models := st.models ++ [cfg.name] }
    match testResult with
    | some true => (true, { st1 with currentModel := some cfg.name })
    | some false => (false, st1)
    | none => (false, { st1 with models := st1.models.filter (fun n => n ≠ cfg.name) })
  else (false, st)

/-! ## Concrete scenarios shared by the claims -/

/-- The first supported descriptor (`tinyllama`, 1.5 GB). -/
def tinyllamaConfig : ModelConfig := SUPPORTED_MODELS[0]!

/-- The second supported descriptor (`qwen-1.8b`, 2.0 GB). -/
def qwenConfig : ModelConfig := SUPPORTED_MODELS[1]!

/-- A monitor that has recorded one failure per listed timestamp,
starting from a fresh monitor created at time 0. -/
def failuresState (times : List ℚ) : HealthState :=
  times.foldl (fun st t => record_request st false (some "err") t) (HealthState.fresh 0)

/-- The monitor after a sequence of successful `/health` polls at the
listed timestamps. -/
def pollsState (times : List ℚ) (st : HealthState) : HealthState :=
  times.foldl (fun st t => ((health_route st t false "").1).1) st

/-- An artifact that passes `_check_model_integrity`: present, 200 MB,
GGUF magic header. -/
def goodArtifact : Artifact := ⟨true, 209715200, [0x47, 0x47, 0x55, 0x46, 0, 0, 0, 0]⟩

/-! ## C2 — cache key normalization -/

/-- C2, counterexample: the claim says the decision-cache key is
invariant under leading/trailing whitespace of the compared values, so
that `("John Doe", "x", "name")` and `("  john doe ", "x", "name")`
hash to the same key.  In the code the key is the MD5 of
`f"{a.lower()}:{b.lower()}:{t}"` — lower-casing only, no strip — so the
two requests feed *different* strings to the digest, and with any
injective digest (in particular MD5 on these two inputs) the keys
differ: witnessed here by the identity digest. -/
theorem c2_counterexample :
    hashInput "John Doe" "x" "name" ≠ hashInput "  john doe " "x" "name"
    ∧ hash_key id "John Doe" "x" "name" ≠ hash_key id "  john doe " "x" "name" := by
  constructor <;> decide

/-- C2, amended: the cache-key function is invariant under letter-case
changes of the two compared values (two values with the same
lower-casing yield the same key, for every digest function), but it is
NOT invariant under leading/trailing whitespace: the pre-hash strings
for `("John Doe", "x", "name")` and `("  john doe ", "x", "name")`
differ. -/
theorem c2_amended :
    (∀ (hashFn : String → String) (a a' b b' t : String),
      strLower a' = strLower a → strLower b' = strLower b →
      hash_key hashFn a' b' t = hash_key hashFn a b t)
    ∧ hashInput "John Doe" "x" "name" ≠ hashInput "  john doe " "x" "name" := by
  refine ⟨fun hashFn a a' b b' t ha hb => ?_, by decide⟩
  simp [hash_key, hashInput, ha, hb]

/-- C2, witness for the amended theorem: a pure case change
(`"JOHN DOE"`/`"John Doe"`, `"X"`/`"x"`) keeps the key. -/
theorem c2_amended_witness :
    hash_key id "JOHN DOE" "X" "name" = hash_key id "John Doe" "x" "name" :=
  c2_amended.1 id "John Doe" "JOHN DOE" "x" "X" "name" (by decide) (by decide)

/-! ## C4 — model selection under the memory ceiling -/

/-- C4, counterexample: with 2.2 GB available, all four artifacts on
disk and no field type, the claim demands the 2.0 GB descriptor
(`qwen-1.8b`, "largest that fits").  The code subtracts the default
0.5 GB safety margin (leaving 1.7 GB, which only the 1.5 GB descriptor
meets) and, selecting with the default fallback order (the available
names themselves), returns the *first* fitting descriptor — so
`select_model_for_request` returns `tinyllama`, not `qwen-1.8b`. -/
theorem c4_counterexample :
    (select_model_for_request (mkRat 22 10) (mkRat 5 10) (fun _ => true)
        (fun _ => none) none none).map (fun m => m.name) = some "tinyllama"
    ∧ (select_model_for_request (mkRat 22 10) (mkRat 5 10) (fun _ => true)
        (fun _ => none) none none).map (fun m => m.name) ≠ some "qwen-1.8b" := by
  constructor <;> decide

/-- Helper: whatever `select_model_for_request` returns was a member of
the filtered available list. -/
theorem select_model_for_request_mem (avail thr : ℚ) (onDisk : String → Bool)
    (mapping : String → Option String) (fallback_order : Option (List String))
    (field_type : Option String) (m : ModelConfig)
    (h : select_model_for_request avail thr onDisk mapping fallback_order field_type = some m) :
    m ∈ get_available_models avail thr onDisk := by
  by_cases he : (get_available_models avail thr onDisk).isEmpty
  · simp [select_model_for_request, he] at h
  · simp only [select_model_for_request, he, Bool.false_eq_true, if_false] at h
    split at h
    · split at h
      · cases h
        next hf => exact List.mem_of_find?_eq_some hf
      · exact List.mem_of_mem_head? (Option.mem_def.mpr h)
    · exact List.mem_of_mem_head? (Option.mem_def.mpr h)

/-- C4, amended: candidate filtering keeps exactly the supported
descriptors whose memory requirement is at most the available memory
minus the safety margin and whose artifact is on disk.  With available
memory 2.2 GB, the default 0.5 GB margin, all artifacts present and no
field type, `select_model_for_request` returns the 1.5 GB `tinyllama`
descriptor — the first fitting one in declaration order under the
default fallback order — not the largest fitting one; and for every
margin `thr ≥ 0` and any selector configuration it can never return the
2.5 GB `gemma-2b` descriptor, since every returned descriptor fits in
the 2.2 GB. -/
theorem c4_amended :
    (∀ (avail thr : ℚ) (onDisk : String → Bool) (m : ModelConfig),
      m ∈ get_available_models avail thr onDisk ↔
        m ∈ SUPPORTED_MODELS ∧ m.memory_requirement_gb ≤ avail - thr
          ∧ onDisk m.path = true)
    ∧ select_model_for_request (mkRat 22 10) (mkRat 5 10) (fun _ => true)
        (fun _ => none) none none = some tinyllamaConfig
    ∧ (∀ (thr : ℚ) (onDisk : String → Bool) (mapping : String → Option String)
        (fb : Option (List String)) (ft : Option String) (m : ModelConfig),
        0 ≤ thr →
        select_model_for_request (mkRat 22 10) thr onDisk mapping fb ft = some m →
        m.name ≠ "gemma-2b" ∧ m.memory_requirement_gb ≤ mkRat 22 10) := by
  refine ⟨?_, by decide, ?_⟩
  · intro avail thr onDisk m
    simp [get_available_models, List.mem_filter, ratSub_eq, decide_eq_true_iff,
      and_assoc]
  · intro thr onDisk mapping fb ft m hthr hsel
    have hm := select_model_for_request_mem _ _ _ _ _ _ _ hsel
    simp [get_available_models, List.mem_filter, ratSub_eq, decide_eq_true_iff] at hm
    obtain ⟨hmem, hfit, -⟩ := hm
    have hceil : m.memory_requirement_gb ≤ mkRat 22 10 := by
      have : (mkRat 22 10 : ℚ) - thr ≤ mkRat 22 10 := by linarith
      linarith
    refine ⟨?_, hceil⟩
    intro hname
    have : m.memory_requirement_gb = mkRat 25 10 := by
      simp [SUPPORTED_MODELS] at hmem
      rcases hmem with h | h | h | h <;> subst h <;> first | rfl | simp_all
    rw [this] at hceil
    rw [Rat.mkRat_eq_div, Rat.mkRat_eq_div] at hceil
    norm_num at hceil

/-- C4, witness for the amended theorem: the concrete 2.2 GB scenario,
discharged through the never-gemma clause. -/
theorem c4_amended_witness :
    tinyllamaConfig.name ≠ "gemma-2b"
    ∧ tinyllamaConfig.memory_requirement_gb ≤ mkRat 22 10 :=
  c4_amended.2.2 (mkRat 5 10) (fun _ => true) (fun _ => none) none none
    tinyllamaConfig (by decide) (by decide)

/-! ## C5 — health escalation sequence -/

/-- C5, counterexample: after 5 consecutive failures on a fresh
monitor, recovery has indeed fired exactly once, but the snapshot
status immediately afterwards is NOT `degraded` as the claim demands —
`trigger_recovery` has just reset the consecutive-error counter to 0,
so the `consecutive_errors >= 3` branch does not fire and the status
derives from the error rate instead. -/
theorem c5_counterexample :
    (failuresState [1, 2, 3, 4, 5]).recovery_attempts = 1
    ∧ (get_health_status (failuresState [1, 2, 3, 4, 5]) 5).status ≠ Status.degraded := by
  constructor <;> decide

/-- C5, amended: recording 5 consecutive failures on a fresh monitor
triggers the automatic recovery exactly once — not before the 5th
failure and not twice — and immediately afterwards the snapshot status
reads `warning`, not `degraded`: the recovery resets the
consecutive-error counter to 0 while the 5-minute error rate is 1.0
(> 0.1).  A subsequent success keeps the counter at 0 and the status at
`warning` (the window still holds the five failures). -/
theorem c5_amended :
    (failuresState [1]).recovery_attempts = 0
    ∧ (failuresState [1, 2]).recovery_attempts = 0
    ∧ (failuresState [1, 2, 3]).recovery_attempts = 0
    ∧ (failuresState [1, 2, 3, 4]).recovery_attempts = 0
    ∧ (failuresState [1, 2, 3, 4, 5]).recovery_attempts = 1
    ∧ (failuresState [1, 2, 3, 4, 5]).consecutive_errors = 0
    ∧ (get_health_status (failuresState [1, 2, 3, 4, 5]) 5).status = Status.warning
    ∧ (get_health_status (failuresState [1, 2, 3, 4, 5]) 5).error_rate_5min = 1
    ∧ (get_health_status
        (record_request (failuresState [1, 2, 3, 4, 5]) true none 6) 6).status
        = Status.warning := by
  refine ⟨by decide, by decide, by decide, by decide, by decide, by decide,
    by decide, by decide, by decide⟩

/-! ## C7 — artifact integrity gate -/

/-- C7: the integrity check inspects the artifact in the fixed order
path-exists, then absolute minimum size, then magic header, failing at
the first violated check (the embedding is a pure read-only function);
every 10-byte artifact fails the check, and on such an artifact
`SafeLlamaServer.load_model` performs zero native-engine constructions,
whatever the retry budget and oracles. -/
theorem c7_integrity_gate :
    (∀ a : Artifact, a.size = 10 →
      check_model_integrity a = false
      ∧ ∀ (memoryOk : Bool) (outerRaises constructOk timedOut verifyOk : Nat → Bool)
          (rc mr : Nat),
          (safe_load_model false false a memoryOk outerRaises constructOk timedOut
            verifyOk rc mr).2.1 = 0)
    ∧ (∀ a : Artifact, a.pathExists = false → check_model_integrity a = false)
    ∧ (∀ a : Artifact, a.pathExists = true → a.size < min_model_size →
        check_model_integrity a = false)
    ∧ (∀ a : Artifact, a.pathExists = true → min_model_size ≤ a.size →
        (check_model_integrity a = true ↔ (a.bytes.take 8).take 4 = ggufMagic)) := by
  refine ⟨?_, ?_, ?_, ?_⟩
  · intro a ha
    have hsmall : a.size < min_model_size := by rw [ha]; decide
    have hchk : check_model_integrity a = false := by
      unfold check_model_integrity
      rcases hp : a.pathExists <;> simp [hp, hsmall]
    refine ⟨hchk, ?_⟩
    intro memoryOk oR cO tO vO rc mr
    cases mr with
    | zero => simp [safe_load_model, safe_load_go]
    | succ n =>
      simp only [safe_load_model, safe_load_go, Bool.false_eq_true, if_false,
        hchk, not_false_eq_true, if_true]
      split <;> simp
  · intro a hp
    unfold check_model_integrity
    simp [hp]
  · intro a hp hsmall
    unfold check_model_integrity
    simp [hp, hsmall]
  · intro a hp hbig
    unfold check_model_integrity
    simp [hp, Nat.not_lt.mpr hbig]

/-- A 10-byte artifact with an invalid header, for the C7 witness. -/
def badArtifact : Artifact := ⟨true, 10, [1, 2, 3, 4, 5, 6, 7, 8, 9, 10]⟩

/-- C7, witness: the concrete 10-byte artifact fails the check and
never reaches the native constructor. -/
theorem c7_integrity_gate_witness :
    check_model_integrity badArtifact = false
    ∧ (safe_load_model false false badArtifact true (fun _ => false) (fun _ => true)
        (fun _ => false) (fun _ => true) 0 2).2.1 = 0 :=
  ⟨(c7_integrity_gate.1 badArtifact rfl).1,
   (c7_integrity_gate.1 badArtifact rfl).2 true (fun _ => false) (fun _ => true)
     (fun _ => false) (fun _ => true) 0 2⟩

/-! ## C10 — health polling is not observation-only -/

/-- C10: every successful `GET /health` ends in
`record_request(success=True)`, which resets the consecutive-error
counter; therefore health polling alone moves the status: a monitor
degraded by 3 straight failures leaves `degraded` after a single poll
(the rate also changes from 1 to 3/4), and 27 polls bring it all the
way back to `healthy` (rate 3/30 = 0.1, no longer above the 0.1
threshold) — without any comparison request succeeding. -/
theorem c10_health_polling :
    (∀ (st : HealthState) (now : ℚ) (err : String),
      ((health_route st now false err).1).1 = record_request st true none now
      ∧ (health_route st now false err).2 = [true])
    ∧ (∀ (st : HealthState) (now : ℚ),
        (record_request st true none now).consecutive_errors = 0)
    ∧ (get_health_status (failuresState [1, 2, 3]) 3).status = Status.degraded
    ∧ (get_health_status (pollsState [4] (failuresState [1, 2, 3])) 4).status
        = Status.warning
    ∧ (get_health_status (pollsState [4] (failuresState [1, 2, 3])) 4).error_rate_5min
        ≠ (get_health_status (failuresState [1, 2, 3]) 3).error_rate_5min
    ∧ (get_health_status
        (pollsState ((List.range 27).map (fun k => ((4 + k : Nat) : ℚ)))
          (failuresState [1, 2, 3])) 30).status = Status.healthy := by
  refine ⟨?_, ?_, by decide, by decide, by decide, ?_⟩
  · intro st now err
    exact ⟨rfl, rfl⟩
  · intro st now
    simp [record_request]
  · set_option maxRecDepth 10000 in decide

/-! ## C3 — recordRequest on comparison terminal paths -/

/-- C3, counterexample: the claim demands exactly one
`HealthMonitor.recordRequest` call per terminal outcome of a comparison
request.  The `/validate` route of `routes_safe.py` never touches the
health monitor: its successful JSON terminal path performs zero
`record_request` calls, not one. -/
theorem c3_counterexample :
    (validate_route true true "a" "a" (some ⟨"x", 1, 1⟩) (some (true, 1, "ok"))).2 = []
    ∧ (validate_route true true "a" "a" (some ⟨"x", 1, 1⟩)
        (some (true, 1, "ok"))).2.length ≠ 1 := by
  constructor <;> decide

/-- C3, amended: no terminal path of the `/validate` comparison route
calls `record_request` at all (zero calls on the 400 paths, the JSON
path, the string-comparison fallback and the exception path); the
monitor is only updated by the `/health` endpoint, whose two terminal
paths each record exactly once — success on the normal path, failure on
the exception path. -/
theorem c3_amended :
    (∀ (is_json hasBody : Bool) (csv web : String) (gen : Option GenOut)
        (jsonParsed : Option (Bool × ℚ × String)),
      (validate_route is_json hasBody csv web gen jsonParsed).2 = [])
    ∧ (∀ (st : HealthState) (now : ℚ) (err : String),
        (health_route st now false err).2 = [true]
        ∧ (health_route st now true err).2 = [false]) := by
  constructor
  · intro is_json hasBody csv web gen jsonParsed
    rcases hf : fallbackCompare csv web with ⟨m, c⟩
    cases is_json <;> cases hasBody <;> cases gen <;>
      rcases jsonParsed with _ | ⟨⟨jm, jc, jr⟩⟩ <;>
      simp [validate_route, hf]
  · intro st now err
    exact ⟨rfl, rfl⟩

/-! ## C8 — single-handle invariant -/

/-- C8, counterexample: the claim says at most one native engine is
live at a time and a new load never leaves the previous engine alive.
`ProductionLLMServerV2.load_model` stores every successfully
constructed engine in the `self.models` dictionary and never evicts on
load: after loading `tinyllama` and then `qwen-1.8b`, both engines are
live simultaneously. -/
theorem c8_counterexample :
    (prod_load_model (prod_load_model ProdServerState.init tinyllamaConfig true
      (some true)).2 qwenConfig true (some true)).2.models
      = ["tinyllama", "qwen-1.8b"]
    ∧ ¬ (prod_load_model (prod_load_model ProdServerState.init tinyllamaConfig true
      (some true)).2 qwenConfig true (some true)).2.models.length ≤ 1 := by
  constructor <;> decide

/-- C8, amended: the production server keeps a cache of live engines
rather than a single handle: a load never evicts an engine already in
the cache (every previously loaded engine stays live alongside the new
one), and a load that returns `True` leaves the requested descriptor as
the current model with its engine present in the cache. -/
theorem c8_amended :
    ∀ (st : ProdServerState) (cfg : ModelConfig) (constructOk : Bool)
      (testResult : Option Bool),
      (∀ n, n ∈ st.models → n ∈ (prod_load_model st cfg constructOk testResult).2.models)
      ∧ ((prod_load_model st cfg constructOk testResult).1 = true →
          (prod_load_model st cfg constructOk testResult).2.currentModel = some cfg.name
          ∧ cfg.name ∈ (prod_load_model st cfg constructOk testResult).2.models) := by
  intro st cfg c t
  by_cases hmem : cfg.name ∈ st.models
  · constructor
    · intro n hn
      simpa [prod_load_model, hmem] using hn
    · intro _
      simp [prod_load_model, hmem]
  · cases c with
    | false =>
      constructor
      · intro n hn
        simpa [prod_load_model, hmem] using hn
      · intro habs
        simp [prod_load_model, hmem] at habs
    | true =>
      rcases t with _ | tb
      · constructor
        · intro n hn
          have hne : n ≠ cfg.name := fun h => hmem (h ▸ hn)
          simp [prod_load_model, hmem, List.mem_filter, hne, hn]
        · intro habs
          simp [prod_load_model, hmem] at habs
      · cases tb with
        | false =>
          constructor
          · intro n hn
            simp [prod_load_model, hmem, hn]
          · intro habs
            simp [prod_load_model, hmem] at habs
        | true =>
          constructor
          · intro n hn
            simp [prod_load_model, hmem, hn]
          · intro _
            simp [prod_load_model, hmem]

/-- C8, witness for the amended theorem: loading `qwen-1.8b` on a
server that already holds `tinyllama` keeps `tinyllama` live and makes
`qwen-1.8b` the current, cached model. -/
theorem c8_amended_witness :
    "tinyllama" ∈ (prod_load_model ⟨["tinyllama"], some "tinyllama"⟩ qwenConfig true
      (some true)).2.models
    ∧ (prod_load_model ⟨["tinyllama"], some "tinyllama"⟩ qwenConfig true
        (some true)).2.currentModel = some qwenConfig.name
    ∧ qwenConfig.name ∈ (prod_load_model ⟨["tinyllama"], some "tinyllama"⟩ qwenConfig true
        (some true)).2.models :=
  ⟨(c8_amended ⟨["tinyllama"], some "tinyllama"⟩ qwenConfig true (some true)).1
      "tinyllama" (by decide),
   ((c8_amended ⟨["tinyllama"], some "tinyllama"⟩ qwenConfig true (some true)).2
      (by decide)).1,
   ((c8_amended ⟨["tinyllama"], some "tinyllama"⟩ qwenConfig true (some true)).2
      (by decide)).2⟩

/-! ## C1 — cache round trip -/

/-- A lookup in the empty table finds nothing. -/
theorem find_similar_nil (hashFn : String → String) (csv web ft : String) (thr : ℚ) :
    find_similar_decision hashFn [] csv web ft thr = none := rfl

/-- A lookup in a one-row table returns the row exactly when its key
matches and its confidence reaches the threshold. -/
theorem find_similar_singleton (hashFn : String → String) (r : StoredDecision)
    (csv web ft : String) (thr : ℚ)
    (hk : r.hash_key = hash_key hashFn csv web ft)
    (hc : r.decision.confidence ≥ thr) :
    find_similar_decision hashFn [r] csv web ft thr = some r := by
  simp [find_similar_decision, latestByTimestamp, List.filter, hk, hc]

/-- C1, counterexample: the claim says a decision persisted at the
0.7 floor is served from the cache on the next identical request.  The
lookup threshold (`similarity_threshold = 0.95`) is stricter than the
persist floor (0.7): a `qwen-1.8b` "YES" decision has confidence 0.85,
is persisted (0.85 ≥ 0.7), yet the identical second request is NOT
answered from the cache (0.85 < 0.95). -/
theorem c1_counterexample :
    (validate id [] "a" "b" "text" (some qwenConfig) true (some "YES") "r1" 1 10).1.confidence
      ≥ persist_floor
    ∧ (validate id [] "a" "b" "text" (some qwenConfig) true (some "YES") "r1" 1 10).2.length
      = 1
    ∧ (validate id
        (validate id [] "a" "b" "text" (some qwenConfig) true (some "YES") "r1" 1 10).2
        "a" "b" "text" (some qwenConfig) true (some "YES") "r2" 2 10).1.from_cache
      = false := by
  refine ⟨by decide, by decide, by decide⟩

/-- C1, amended: for every pair of values and field type, if the first
comparison request (against an empty decision table) classifies and its
decision's confidence reaches the cache *lookup* threshold 0.95 — not
merely the 0.7 persist floor — then the identical second request is
answered from the cache with `from_cache=true` and the same match and
confidence as the first response. -/
theorem c1_amended (hashFn : String → String) (csv web ft : String) (cfg : ModelConfig)
    (text : String) (id1 id2 : String) (t1 t2 : ℚ) (pt1 pt2 : Nat)
    (modelSel2 : Option ModelConfig) (loadOk2 : Bool) (respText2 : Option String)
    (hconf : (classifyAnswer cfg.name text).2 ≥ mkRat 95 100) :
    (validate hashFn [] csv web ft (some cfg) true (some text) id1 t1 pt1).2 ≠ []
    ∧ (validate hashFn
        (validate hashFn [] csv web ft (some cfg) true (some text) id1 t1 pt1).2
        csv web ft modelSel2 loadOk2 respText2 id2 t2 pt2).1.from_cache = true
    ∧ (validate hashFn
        (validate hashFn [] csv web ft (some cfg) true (some text) id1 t1 pt1).2
        csv web ft modelSel2 loadOk2 respText2 id2 t2 pt2).1.matched
      = (validate hashFn [] csv web ft (some cfg) true (some text) id1 t1 pt1).1.matched
    ∧ (validate hashFn
        (validate hashFn [] csv web ft (some cfg) true (some text) id1 t1 pt1).2
        csv web ft modelSel2 loadOk2 respText2 id2 t2 pt2).1.confidence
      = (validate hashFn [] csv web ft (some cfg) true (some text) id1 t1 pt1).1.confidence := by
  rcases hmc : classifyAnswer cfg.name text with ⟨m, c⟩
  have hc95 : c ≥ mkRat 95 100 := by rw [hmc] at hconf; exact hconf
  have hc7 : c ≥ persist_floor :=
    le_trans (by decide : persist_floor ≤ mkRat 95 100) hc95
  have h1 : validate hashFn [] csv web ft (some cfg) true (some text) id1 t1 pt1
      = ({ status := 200, matched := m, confidence := c, model_used := cfg.name
         , from_cache := false },
         [⟨{ id := id1, timestamp := t1, csv_value := csv, web_value := web
           , field_type := ft, model_used := cfg.name, matched := m, confidence := c
           , reasoning := "LLM (" ++ cfg.name ++ "): " ++ text
           , processing_time_ms := pt1 }, hash_key hashFn csv web ft⟩]) := by
    simp [validate, find_similar_nil, hmc, hc7, store_decision]
  have h2 : validate hashFn
      (validate hashFn [] csv web ft (some cfg) true (some text) id1 t1 pt1).2
      csv web ft modelSel2 loadOk2 respText2 id2 t2 pt2
      = ({ status := 200, matched := m, confidence := c
         , model_used := "cache(" ++ cfg.name ++ ")", from_cache := true },
         (validate hashFn [] csv web ft (some cfg) true (some text) id1 t1 pt1).2) := by
    rw [h1]
    have hfind := find_similar_singleton hashFn
      ⟨{ id := id1, timestamp := t1, csv_value := csv, web_value := web
       , field_type := ft, model_used := cfg.name, matched := m, confidence := c
       , reasoning := "LLM (" ++ cfg.name ++ "): " ++ text
       , processing_time_ms := pt1 }, hash_key hashFn csv web ft⟩
      csv web ft (mkRat 95 100) rfl hc95
    simp [validate, hfind]
  rw [h1] at h2 ⊢
  rw [h2]
  simp

/-- C1, witness for the amended theorem: a `phi3-mini` "YES" decision
classifies at confidence 0.95, so the second identical request is a
cache hit with the same match and confidence. -/
theorem c1_amended_witness :
    (validate id [] "a" "b" "text" (some (SUPPORTED_MODELS[3]!)) true (some "YES")
      "r1" 1 10).2 ≠ []
    ∧ (validate id
        (validate id [] "a" "b" "text" (some (SUPPORTED_MODELS[3]!)) true (some "YES")
          "r1" 1 10).2
        "a" "b" "text" none false none "r2" 2 10).1.from_cache = true
    ∧ (validate id
        (validate id [] "a" "b" "text" (some (SUPPORTED_MODELS[3]!)) true (some "YES")
          "r1" 1 10).2
        "a" "b" "text" none false none "r2" 2 10).1.matched
      = (validate id [] "a" "b" "text" (some (SUPPORTED_MODELS[3]!)) true (some "YES")
          "r1" 1 10).1.matched
    ∧ (validate id
        (validate id [] "a" "b" "text" (some (SUPPORTED_MODELS[3]!)) true (some "YES")
          "r1" 1 10).2
        "a" "b" "text" none false none "r2" 2 10).1.confidence
      = (validate id [] "a" "b" "text" (some (SUPPORTED_MODELS[3]!)) true (some "YES")
          "r1" 1 10).1.confidence :=
  c1_amended id "a" "b" "text" (SUPPORTED_MODELS[3]!) "YES" "r1" "r2" 1 2 10 10
    none false none (by decide)

/-! ## C6 — bounded retry termination -/

/-- Helper: when every construction attempt fails, `LlamaServer`'s
retry loop performs one attempt per remaining retry and sleeps the
progressive delays between consecutive attempts. -/
theorem llama_load_go_all_fail (cOk vOk : Nat → Bool) (h : ∀ k, cOk k = false)
    (mr : Nat) :
    ∀ (fuel rc : Nat), rc < mr → mr - rc ≤ fuel →
      llama_load_go true cOk vOk mr fuel rc
        = (false, mr - rc, (List.range (mr - rc - 1)).map (fun k => (rc + k + 1) * 2)) := by
  intro fuel
  induction fuel with
  | zero => intro rc h1 h2; omega
  | succ fuel ih =>
    intro rc h1 h2
    have hge : ¬ rc ≥ mr := by omega
    rw [llama_load_go, if_neg hge]
    simp only [Bool.not_true, Bool.false_eq_true, if_false, h rc, Bool.false_and,
      not_true_eq_false, if_true]
    by_cases hlt : rc < mr - 1
    · rw [if_pos hlt, ih (rc + 1) (by omega) (by omega)]
      have hn : mr - rc - 1 = (mr - (rc + 1) - 1) + 1 := by omega
      rw [hn, List.range_succ_eq_map, List.map_cons, List.map_map]
      simp only [Prod.mk.injEq]
      refine ⟨trivial, by omega, ?_⟩
      refine congrArg₂ List.cons (by simp) ?_
      exact List.map_congr_left (fun k _ => by simp [Function.comp]; omega)
    · rw [if_neg hlt]
      have hone : mr - rc = 1 := by omega
      simp [hone]

/-- C6, counterexample: the claim demands that, on every model path,
exhausting failures makes `load_model` perform exactly `max_retries`
attempts with progressive delays.  In `SafeLlamaServer.load_model` a
failed native construction is swallowed inside the loader thread, so
the retry branch is never reached: with `max_retries = 2` (its default)
and every construction failing, the function performs exactly ONE
construction attempt, sleeps no backoff delay, and returns `False`. -/
theorem c6_counterexample :
    safe_load_model false false goodArtifact true (fun _ => false) (fun _ => false)
      (fun _ => false) (fun _ => true) 0 2 = (false, 1, [])
    ∧ (safe_load_model false false goodArtifact true (fun _ => false) (fun _ => false)
      (fun _ => false) (fun _ => true) 0 2).2.1 ≠ 2 := by
  constructor <;> decide

/-- C6, amended: `LlamaServer.load_model` (max_retries default 3), when
every attempt fails, performs exactly `max_retries` construction
attempts with delays `2s, 4s, ...` (`(attempt_index) * 2` between
consecutive attempts) and returns `False`, never looping indefinitely
and never letting the exception escape; `SafeLlamaServer.load_model`,
by contrast, returns `False` after exactly one construction attempt and
no delay when the construction fails (its retry branch is reachable
only if the orchestration code outside the loader thread raises). -/
theorem c6_amended :
    (∀ (mr : Nat) (cOk vOk : Nat → Bool), 1 ≤ mr → (∀ k, cOk k = false) →
      llama_load_model true cOk vOk 0 mr
        = (false, mr, (List.range (mr - 1)).map (fun k => (k + 1) * 2)))
    ∧ (∀ (mr : Nat) (a : Artifact) (oR cOk tOk vOk : Nat → Bool), 1 ≤ mr →
        check_model_integrity a = true →
        (∀ k, oR k = false) → (∀ k, cOk k = false) →
        safe_load_model false false a true oR cOk tOk vOk 0 mr = (false, 1, [])) := by
  constructor
  · intro mr cOk vOk hmr hfail
    rw [llama_load_model, llama_load_go_all_fail cOk vOk hfail mr mr 0 (by omega) (by omega)]
    simp
  · intro mr a oR cOk tOk vOk hmr hchk hoR hfail
    cases mr with
    | zero => omega
    | succ n =>
      rw [safe_load_model, safe_load_go]
      simp [hchk, hoR 0, hfail 0]

/-- C6, witness for the amended theorem: three all-failing attempts
under the default `max_retries = 3` give exactly 3 attempts with
delays 2s and 4s between them, and the safe manager's single attempt. -/
theorem c6_amended_witness :
    llama_load_model true (fun _ => false) (fun _ => true) 0 3
      = (false, 3, (List.range 2).map (fun k => (k + 1) * 2))
    ∧ safe_load_model false false goodArtifact true (fun _ => false) (fun _ => false)
        (fun _ => false) (fun _ => true) 0 2 = (false, 1, []) :=
  ⟨c6_amended.1 3 (fun _ => false) (fun _ => true) (by omega) (fun _ => rfl),
   c6_amended.2 2 goodArtifact (fun _ => false) (fun _ => false) (fun _ => false)
     (fun _ => true) (by omega) (by decide) (fun _ => rfl) (fun _ => rfl)⟩

/-! ## C9 — health snapshot status derivation -/

/-- Helper: the four-way characterization of the status if-chain, over
abstract counter, rate and attempt values. -/
theorem health_status_chain (c : Nat) (r : ℚ) (a : Nat) :
    ((if 3 ≤ c then Status.degraded
      else if error_threshold_rate < r then Status.warning
      else if 0 < a then Status.recovering
      else Status.healthy) = Status.degraded ↔ 3 ≤ c)
    ∧ ((if 3 ≤ c then Status.degraded
        else if error_threshold_rate < r then Status.warning
        else if 0 < a then Status.recovering
        else Status.healthy) = Status.warning ↔ c < 3 ∧ error_threshold_rate < r)
    ∧ ((if 3 ≤ c then Status.degraded
        else if error_threshold_rate < r then Status.warning
        else if 0 < a then Status.recovering
        else Status.healthy) = Status.recovering ↔
          c < 3 ∧ r ≤ error_threshold_rate ∧ 0 < a)
    ∧ ((if 3 ≤ c then Status.degraded
        else if error_threshold_rate < r then Status.warning
        else if 0 < a then Status.recovering
        else Status.healthy) = Status.healthy ↔
          c < 3 ∧ r ≤ error_threshold_rate ∧ a = 0) := by
  split_ifs with h1 h2 h3 <;>
    simp_all [not_lt.mp, not_lt] <;> omega

/-- C9: the snapshot derives the status by the priority order
`consecutive_errors >= 3` → degraded (checked first, overriding the
rest); else 5-minute error rate above 0.1 → warning; else any recovery
attempt → recovering; else healthy; and the 5-minute error rate divides
failures by total over the request records strictly newer than
`now - 300`, being 0 when that window is empty. -/
theorem c9_status_derivation :
    ∀ (st : HealthState) (now : ℚ),
      ((get_health_status st now).status = Status.degraded ↔
        3 ≤ st.consecutive_errors)
      ∧ ((get_health_status st now).status = Status.warning ↔
          st.consecutive_errors < 3
          ∧ error_threshold_rate < (get_health_status st now).error_rate_5min)
      ∧ ((get_health_status st now).status = Status.recovering ↔
          st.consecutive_errors < 3
          ∧ (get_health_status st now).error_rate_5min ≤ error_threshold_rate
          ∧ 0 < st.recovery_attempts)
      ∧ ((get_health_status st now).status = Status.healthy ↔
          st.consecutive_errors < 3
          ∧ (get_health_status st now).error_rate_5min ≤ error_threshold_rate
          ∧ st.recovery_attempts = 0)
      ∧ (st.recent_requests.filter (fun r => r.1 > now - 300) = [] →
          (get_health_status st now).error_rate_5min = 0)
      ∧ (st.recent_requests.filter (fun r => r.1 > now - 300) ≠ [] →
          (get_health_status st now).error_rate_5min
            = (((st.recent_requests.filter (fun r => r.1 > now - 300)).filter
                  (fun r => ¬ r.2)).length : ℚ)
              / ((st.recent_requests.filter (fun r => r.1 > now - 300)).length : ℚ)) := by
  intro st now
  have hwin : st.recent_requests.filter (fun r => r.1 > ratSub now 300)
      = st.recent_requests.filter (fun r => r.1 > now - 300) := by
    rw [ratSub_eq]
  have hrate : (get_health_status st now).error_rate_5min
      = (if (st.recent_requests.filter (fun r => r.1 > now - 300)).isEmpty then 0
         else mkRat
           (((st.recent_requests.filter (fun r => r.1 > now - 300)).filter
              (fun r => ¬ r.2)).length : Int)
           ((st.recent_requests.filter (fun r => r.1 > now - 300)).length)) := by
    simp only [get_health_status, hwin]
  have hstat : (get_health_status st now).status
      = (if 3 ≤ st.consecutive_errors then Status.degraded
         else if error_threshold_rate < (get_health_status st now).error_rate_5min then
           Status.warning
         else if 0 < st.recovery_attempts then Status.recovering
         else Status.healthy) := by
    simp only [get_health_status, hwin]
  generalize hr : (get_health_status st now).error_rate_5min = r at hstat hrate ⊢
  refine ⟨?_, ?_, ?_, ?_, ?_, ?_⟩
  · rw [hstat]
    exact (health_status_chain st.consecutive_errors r st.recovery_attempts).1
  · rw [hstat]
    exact (health_status_chain st.consecutive_errors r st.recovery_attempts).2.1
  · rw [hstat]
    exact (health_status_chain st.consecutive_errors r st.recovery_attempts).2.2.1
  · rw [hstat]
    exact (health_status_chain st.consecutive_errors r st.recovery_attempts).2.2.2
  · intro hemp
    rw [hrate, if_pos (List.isEmpty_iff.mpr hemp)]
  · intro hne
    rw [hrate, if_neg (fun h => hne (List.isEmpty_iff.mp h)), Rat.mkRat_eq_div]
    norm_num

/-- C9, witness: a fresh monitor (no errors, empty window, no recovery
attempts) snapshots as `healthy`, via the healthy clause of the
derivation theorem. -/
theorem c9_status_derivation_witness :
    (get_health_status (HealthState.fresh 0) 5).status = Status.healthy :=
  ((c9_status_derivation (HealthState.fresh 0) 5).2.2.2.1).mpr
    ⟨by decide, by decide, by decide⟩
